/-
Verification development for the openclaw-memory-graphiti plugin.

Shallow embedding of the plugin's core modules:
  * src/spicedb.ts        — SpiceDB client wrapper (relationship store, tokens)
  * src/authorization.ts  — authorization bridge over the SpiceDB client
  * src/graphiti.ts       — Graphiti MCP transport client (session lifecycle,
                            episode-UUID reconciliation poll)
  * src/search.ts         — parallel multi-group search merge/dedup/rank
  * src/index.ts          — the memory_store / memory_forget tool handlers

Network services are modelled by explicit state (the SpiceDB relationship
store) and by oracles/traces (permission-check answers, per-poll episode
listings, settled per-group search promises).  Machine-level details that the
source only passes through (JS `Date` parsing of `created_at` strings, the
opaque ZedToken payload) are abstracted to the values the source actually
compares: integer timestamps and a revision counter.
-/
import Mathlib

/-! ## Data model (src/spicedb.ts, src/authorization.ts) -/

/-- `Subject` from src/authorization.ts: `{type: "agent" | "person", id}`. -/
structure Subject where
  type : String
  id : String
deriving DecidableEq

/-- `RelationshipTuple` from src/spicedb.ts. -/
structure RelationshipTuple where
  resourceType : String
  resourceId : String
  relation : String
  subjectType : String
  subjectId : String
deriving DecidableEq

/-- State of the external SpiceDB service: the set of relationship tuples
plus a revision counter.  Each successful write RPC advances the revision and
the ZedToken it produces is modelled as the new revision number. -/
structure SpiceDbState where
  tuples : List RelationshipTuple
  revision : Nat
deriving DecidableEq

/-- TOUCH semantics of one `RelationshipUpdate` (create-or-no-op). -/
def touchTuple (existing : List RelationshipTuple) (t : RelationshipTuple) :
    List RelationshipTuple :=
  if t ∈ existing then existing else existing ++ [t]

/-- `SpiceDbClient.writeRelationships` (src/spicedb.ts lines 74-97): issues a
`WriteRelationshipsRequest` whose updates all use the TOUCH operation and
returns `response.writtenAt?.token`.  The second component is the value the
TypeScript method returns to its caller (`some` token). -/
def writeRelationships (st : SpiceDbState) (ts : List RelationshipTuple) :
    SpiceDbState × Option Nat :=
  (⟨ts.foldl touchTuple st.tuples, st.revision + 1⟩, some (st.revision + 1))

/-- `SpiceDbClient.deleteRelationships` (src/spicedb.ts lines 99-121): issues a
`WriteRelationshipsRequest` whose updates all use the DELETE operation.  The
RPC response carries a `writtenAt` token, but the method's return type is
`Promise<void>`: the caller receives no token, modelled as `none`. -/
def deleteRelationships (st : SpiceDbState) (ts : List RelationshipTuple) :
    SpiceDbState × Option Nat :=
  (⟨st.tuples.filter (fun u => u ∉ ts), st.revision + 1⟩, none)

/-- The `relationshipFilter` of `DeleteRelationshipsRequest` in
`deleteRelationshipsByFilter`; `relation = none` models the spread
`...(params.relation ? ... : {})` omitting `optionalRelation`. -/
structure RelFilter where
  resourceType : String
  resourceId : String
  relation : Option String
deriving DecidableEq

/-- Whether a stored tuple matches the delete filter (SpiceDB semantics of
`RelationshipFilter` with `resourceType`, `optionalResourceId` and, when
present, `optionalRelation`; the subject side is unconstrained). -/
def matchesRelFilter (f : RelFilter) (t : RelationshipTuple) : Bool :=
  t.resourceType == f.resourceType && t.resourceId == f.resourceId &&
    (match f.relation with
     | none => true
     | some r => t.relation == r)

/-- `SpiceDbClient.deleteRelationshipsByFilter` (src/spicedb.ts lines 123-138):
removes every tuple matching the filter and returns
`response.deletedAt?.token`. -/
def deleteRelationshipsByFilter (st : SpiceDbState) (f : RelFilter) :
    SpiceDbState × Option Nat :=
  (⟨st.tuples.filter (fun t => !matchesRelFilter f t), st.revision + 1⟩,
   some (st.revision + 1))

/-- Filter argument of `SpiceDbClient.readRelationships` (src/spicedb.ts lines
232-278).  The source builds `filterFields` with only the truthy optional
parameters, and attaches `optionalSubjectId` only when `subjectType` is set;
absent fields are `none` here. -/
structure ReadRelFilter where
  resourceType : String
  resourceId : Option String
  relation : Option String
  subjectType : Option String
  subjectId : Option String
deriving DecidableEq

/-- Whether a stored tuple matches a read filter.  The `subjectId` constraint
only applies underneath a `subjectType` constraint, exactly as the source only
adds `optionalSubjectId` inside the `subjectType` branch. -/
def matchesReadFilter (f : ReadRelFilter) (t : RelationshipTuple) : Bool :=
  t.resourceType == f.resourceType &&
    (match f.resourceId with | none => true | some v => t.resourceId == v) &&
    (match f.relation with | none => true | some v => t.relation == v) &&
    (match f.subjectType with
     | none => true
     | some v =>
       t.subjectType == v &&
         (match f.subjectId with | none => true | some w => t.subjectId == w))

/-- `SpiceDbClient.readRelationships`: returns all stored tuples matching the
filter (the consistency argument selects a snapshot on the live service and
has no effect on this single-snapshot model). -/
def readRelationships (st : SpiceDbState) (f : ReadRelFilter) :
    List RelationshipTuple :=
  st.tuples.filter (matchesReadFilter f)

/-! ## Authorization bridge (src/authorization.ts) -/

/-- A `CheckPermissionRequest` as built by `SpiceDbClient.checkPermission`. -/
structure CheckRequest where
  resourceType : String
  resourceId : String
  permission : String
  subjectType : String
  subjectId : String
deriving DecidableEq

/-- Answer of the external SpiceDB permission evaluator.  Permission
computation follows the SpiceDB schema, which lives outside src/, so checks
are modelled as an oracle consulted with the exact request the source builds. -/
abbrev PermOracle := CheckRequest → Bool

/-- `FragmentRelationships` from src/authorization.ts; `involves` is an
optional array (`none` models an absent field, skipping the loop). -/
structure FragmentRelationships where
  fragmentId : String
  groupId : String
  sharedBy : Subject
  involves : Option (List Subject)

/-- The tuples built by both `writeFragmentRelationships` and
`deleteFragmentRelationships` (src/authorization.ts lines 72-147):
`source_group`, `shared_by`, and one `involves` per involved person. -/
def fragmentTuples (fragmentId : String) (p : FragmentRelationships) :
    List RelationshipTuple :=
  [⟨"memory_fragment", fragmentId, "source_group", "group", p.groupId⟩,
   ⟨"memory_fragment", fragmentId, "shared_by", p.sharedBy.type, p.sharedBy.id⟩]
    ++ (match p.involves with
        | none => []
        | some ps =>
          ps.map (fun person =>
            ⟨"memory_fragment", fragmentId, "involves", person.type, person.id⟩))

/-- `writeFragmentRelationships` (src/authorization.ts lines 72-106): writes
the fragment tuples via `writeRelationships`; its return type is
`Promise<void>`, so the token of the inner write is discarded (`none`). -/
def writeFragmentRelationships (st : SpiceDbState) (p : FragmentRelationships) :
    SpiceDbState × Option Nat :=
  ((writeRelationships st (fragmentTuples p.fragmentId p)).1, none)

/-- `deleteFragmentRelationships` (src/authorization.ts lines 112-147):
rebuilds the same tuple list from the caller-supplied params and removes those
exact tuples via `deleteRelationships`; returns `Promise<void>`. -/
def deleteFragmentRelationships (st : SpiceDbState) (fragmentId : String)
    (p : FragmentRelationships) : SpiceDbState × Option Nat :=
  ((deleteRelationships st (fragmentTuples fragmentId p)).1, none)

/-- `canDeleteFragment` (src/authorization.ts lines 152-164): one
`checkPermission` call for the `delete` permission on the fragment. -/
def canDeleteFragment (check : PermOracle) (subject : Subject)
    (fragmentId : String) : Bool :=
  check ⟨"memory_fragment", fragmentId, "delete", subject.type, subject.id⟩

/-- `canWriteToGroup` (src/authorization.ts lines 170-182): one
`checkPermission` call for the `contribute` permission on the group. -/
def canWriteToGroup (check : PermOracle) (subject : Subject)
    (groupId : String) : Bool :=
  check ⟨"group", groupId, "contribute", subject.type, subject.id⟩

/-- The `group ... #member ...` tuple written by `ensureGroupMembership`. -/
def groupMemberTuple (groupId : String) (member : Subject) : RelationshipTuple :=
  ⟨"group", groupId, "member", member.type, member.id⟩

/-- `ensureGroupMembership` (src/authorization.ts lines 188-202): one TOUCH
write of the member tuple (idempotent); return type `Promise<void>`, so the
inner write's token is discarded (`none`). -/
def ensureGroupMembership (st : SpiceDbState) (groupId : String)
    (member : Subject) : SpiceDbState × Option Nat :=
  ((writeRelationships st [groupMemberTuple groupId member]).1, none)

/-! ## Graphiti transport client (src/graphiti.ts) -/

/-- `GraphitiEpisode` from src/graphiti.ts. -/
structure GraphitiEpisode where
  uuid : String
  name : String
  content : String
  source_description : String
  group_id : String
  created_at : String
deriving DecidableEq

/-- Default of the `uuidPollIntervalMs` field of `GraphitiClient`
(src/graphiti.ts line 80). -/
def uuidPollIntervalMsDefault : Nat := 2000

/-- Default of the `uuidPollMaxAttempts` field of `GraphitiClient`
(src/graphiti.ts line 82). -/
def uuidPollMaxAttemptsDefault : Nat := 15

/-- The timeout error message thrown by `resolveEpisodeUuid` after exhausting
all attempts (src/graphiti.ts lines 317-319); the elapsed time it names is
`(uuidPollMaxAttempts * uuidPollIntervalMs) / 1000` seconds. -/
def timeoutMessage (name groupId : String) (intervalMs maxAttempts : Nat) :
    String :=
  "Failed to resolve episode UUID for \"" ++ name ++ "\" in group \"" ++
    groupId ++ "\" after " ++ toString (maxAttempts * intervalMs / 1000) ++ "s"

/-- One iteration's poll outcome: what `this.getEpisodes(groupId, 50)` settles
to on attempt `i` (an exception is caught and the loop retries). -/
abbrev PollTrace := Nat → Except Unit (List GraphitiEpisode)

/-- The loop body of `resolveEpisodeUuid`: starting at attempt index `i` with
`remaining` attempts left, each iteration sleeps `uuidPollIntervalMs`, polls,
and returns the first episode whose `name` matches; errors are swallowed and
retried.  Returns the successful attempt index and the matched uuid. -/
def resolveFrom (polls : PollTrace) (name : String) :
    Nat → Nat → Option (Nat × String)
  | _, 0 => none
  | i, remaining + 1 =>
    match polls i with
    | Except.ok eps =>
      match eps.find? (fun ep => ep.name == name) with
      | some ep => some (i, ep.uuid)
      | none => resolveFrom polls name (i + 1) remaining
    | Except.error _ => resolveFrom polls name (i + 1) remaining

/-- `GraphitiClient.resolveEpisodeUuid` (src/graphiti.ts lines 306-320): up to
`maxAttempts` attempts, each preceded by an `intervalMs` sleep; resolves with
the matched server uuid (paired here with the total waited milliseconds,
`(i+1) * intervalMs` for 0-based attempt `i`), or rejects with the timeout
message. -/
def resolveEpisodeUuid (intervalMs maxAttempts : Nat) (name groupId : String)
    (polls : PollTrace) : Except String (Nat × String) :=
  match resolveFrom polls name 0 maxAttempts with
  | some (i, uuid) => Except.ok ((i + 1) * intervalMs, uuid)
  | none => Except.error (timeoutMessage name groupId intervalMs maxAttempts)

/-- Predicate: a single poll outcome yields no episode named `name` (either
the call failed, or no listed episode matches). -/
def noPollMatch (name : String) : Except Unit (List GraphitiEpisode) → Prop
  | Except.ok eps => eps.find? (fun ep => ep.name == name) = none
  | Except.error _ => True

/-! ### MCP session lifecycle (`ensureInitialized` / `doInitialize`) -/

/-- Outcome of the HTTP `initialize` POST: success flag and the
`mcp-session-id` response header (absent modelled as `none`). -/
structure InitResponse where
  ok : Bool
  sessionHeader : Option String

/-- The mutable session state of `GraphitiClient`: `sessionId` and the
memoized `initPromise`.  The promise is modelled by its settled presence:
`some ()` when a (successful) initialization promise is cached, `none` when
the field is `null`. -/
structure ClientInitState where
  sessionId : Option String
  initPromise : Option Unit

/-- A `GraphitiClient` as constructed: no session, no in-flight init. -/
def freshClient : ClientInitState :=
  ⟨none, none⟩

/-- Result of one `ensureInitialized` call: the state afterwards, whether the
call succeeded (promise fulfilled vs. rejected), and whether it ran the
`doInitialize` handshake (as opposed to returning early or awaiting the
memoized promise). -/
structure EnsureOutcome where
  state : ClientInitState
  succeeded : Bool
  ranHandshake : Bool

/-- `GraphitiClient.doInitialize` (src/graphiti.ts lines 98-143), sequential
model: on a non-success HTTP status it clears `this.initPromise` and throws;
on success it stores the `mcp-session-id` header into `this.sessionId`. -/
def initHandshake (resp : InitResponse) (s : ClientInitState) :
    ClientInitState × Bool :=
  if resp.ok then ({ s with sessionId := resp.sessionHeader }, true)
  else ({ s with initPromise := none }, false)

/-- `GraphitiClient.ensureInitialized` (src/graphiti.ts lines 90-96):
returns immediately when `sessionId` is set; otherwise awaits the memoized
`initPromise`, creating it (and running `doInitialize`) only when absent. -/
def ensureInitialized (resp : InitResponse) (s : ClientInitState) :
    EnsureOutcome :=
  match s.sessionId with
  | some _ => ⟨s, true, false⟩
  | none =>
    match s.initPromise with
    | some _ => ⟨s, true, false⟩
    | none =>
      let s1 : ClientInitState := { s with initPromise := some () }
      let (s2, ok) := initHandshake resp s1
      ⟨s2, ok, true⟩

/-! ## Parallel search merge (src/search.ts) -/

/-- `SearchResult` from src/search.ts.  `created_at` is an ISO string in the
source, consumed only through `new Date(created_at).getTime()` in the sort
comparator; it is modelled directly as that integer timestamp. -/
structure SearchResult where
  type : String
  uuid : String
  group_id : String
  summary : String
  context : String
  created_at : Int
deriving DecidableEq

/-- One settled per-group promise of the `Promise.allSettled` fan-out:
`ok results` for a fulfilled search, `error ()` for a rejected one. -/
abbrev SettledSearch := Except Unit (List SearchResult)

/-- The fulfilled-collection loop of `searchAuthorizedMemories`
(src/search.ts lines 64-71): concatenate fulfilled result sets in order,
silently skipping rejected ones. -/
def collectFulfilled : List SettledSearch → List SearchResult
  | [] => []
  | Except.ok v :: rest => v ++ collectFulfilled rest
  | Except.error _ :: rest => collectFulfilled rest

/-- The `seen`-set filter of src/search.ts lines 73-81, with the accumulated
set of already-seen uuids made explicit. -/
def dedupGo (seen : List String) : List SearchResult → List SearchResult
  | [] => []
  | r :: rest =>
    if r.uuid ∈ seen then dedupGo seen rest
    else r :: dedupGo (r.uuid :: seen) rest

/-- Deduplicate by UUID, first occurrence winning. -/
def dedupByUuid (l : List SearchResult) : List SearchResult :=
  dedupGo [] l

/-- The sort comparator of src/search.ts lines 84-88 as a relation: `a` may
precede `b` when `dateB - dateA ≤ 0`, i.e. most recent first. -/
def recencyLE (a b : SearchResult) : Prop :=
  b.created_at ≤ a.created_at

instance : DecidableRel recencyLE := fun a b =>
  inferInstanceAs (Decidable (b.created_at ≤ a.created_at))

instance : IsTotal SearchResult recencyLE :=
  ⟨fun a b => Int.le_total b.created_at a.created_at⟩

instance : IsTrans SearchResult recencyLE :=
  ⟨fun _ _ _ h1 h2 => le_trans h2 h1⟩

/-- `deduped.sort(...)` with the recency comparator (a stable sort, most
recent first). -/
def sortByRecency (l : List SearchResult) : List SearchResult :=
  l.insertionSort recencyLE

/-- `searchAuthorizedMemories` (src/search.ts lines 40-91) with the per-group
network calls abstracted to their settled outcomes `resultSets`: collect the
fulfilled sets, deduplicate by uuid, sort by recency, and truncate to
`limit`.  (The early return for zero group ids is the `resultSets = []`
instance.) -/
def searchAuthorizedMemories (resultSets : List SettledSearch) (limit : Nat) :
    List SearchResult :=
  (sortByRecency (dedupByUuid (collectFulfilled resultSets))).take limit

/-- Whether a settled per-group search fulfilled. -/
def isFulfilled : SettledSearch → Bool
  | Except.ok _ => true
  | Except.error _ => false

/-! ## Tool handlers (src/index.ts) -/

/-- `sessionGroupId` (src/index.ts lines 43-46). -/
def sessionGroupId (sessionId : String) : String :=
  "session-" ++ sessionId

/-- `isSessionGroup` (src/index.ts lines 48-50): `groupId.startsWith("session-")`,
expressed on the underlying character list. -/
def isSessionGroup (groupId : String) : Bool :=
  "session-".data.isPrefixOf groupId.data

/-- Target-group resolution of `memory_store.execute` (src/index.ts lines
230-238): explicit `group_id` wins, then the session group when
`longTerm = false` and a current session id exists, then the configured
default.  (`group_id` and `currentSessionId` are tested for JS truthiness in
the source; `none` models an absent or empty value.) -/
def resolveTargetGroupId (group_id : Option String) (longTerm : Bool)
    (currentSessionId : Option String) (defaultGroupId : String) : String :=
  match group_id with
  | some g => g
  | none =>
    match longTerm, currentSessionId with
    | false, some sid => sessionGroupId sid
    | _, _ => defaultGroupId

/-- The `isOwnSession` test of src/index.ts lines 243-246:
`isSessionGroup(target) && currentSessionId != null &&
target === sessionGroupId(currentSessionId)`. -/
def isOwnSessionTarget (currentSessionId : Option String) (target : String) :
    Bool :=
  isSessionGroup target &&
    (match currentSessionId with
     | some sid => target == sessionGroupId sid
     | none => false)

/-- Parameters of the `memory_store` tool (src/index.ts lines 215-228) that
affect the modelled state: `content` and `source_description` flow into the
episode body only. -/
structure StoreParams where
  content : String
  involves : List String
  group_id : Option String
  longTerm : Bool

/-- Observable outcome of one `memory_store.execute` call: the `action` and
`groupId`/`episodeId` of the returned `details`, which SpiceDB calls the
handler performed, and the SpiceDB state afterwards. -/
structure StoreResult where
  action : String
  groupId : String
  episodeId : Option String
  contributeChecked : Bool
  membershipEnsured : Bool
  spicedb : SpiceDbState
deriving DecidableEq

/-- `memory_store.execute` (src/index.ts lines 215-309).  `trackingUuid` is
the client-side uuid `randomUUID()` generated inside
`GraphitiClient.addEpisode`; the handler stores the episode and then writes
the fragment authorization tuples under `result.episode_uuid` — that same
tracking uuid — without awaiting `resolvedUuid`. -/
def memoryStoreExecute (check : PermOracle) (currentSessionId : Option String)
    (currentSubject : Subject) (defaultGroupId : String)
    (trackingUuid : String) (p : StoreParams) (st : SpiceDbState) :
    StoreResult :=
  let targetGroupId :=
    resolveTargetGroupId p.group_id p.longTerm currentSessionId defaultGroupId
  if isOwnSessionTarget currentSessionId targetGroupId then
    -- own-session fast path: ensure membership, no permission check
    let st1 := (ensureGroupMembership st targetGroupId currentSubject).1
    let involvedSubjects := p.involves.map (fun i => Subject.mk "person" i)
    let st2 := (writeFragmentRelationships st1
      ⟨trackingUuid, targetGroupId, currentSubject, some involvedSubjects⟩).1
    ⟨"created", targetGroupId, some trackingUuid, false, true, st2⟩
  else
    if !canWriteToGroup check currentSubject targetGroupId then
      ⟨"denied", targetGroupId, none, true, false, st⟩
    else
      let involvedSubjects := p.involves.map (fun i => Subject.mk "person" i)
      let st2 := (writeFragmentRelationships st
        ⟨trackingUuid, targetGroupId, currentSubject, some involvedSubjects⟩).1
      ⟨"created", targetGroupId, some trackingUuid, true, false, st2⟩

/-- Observable outcome of one `memory_forget.execute` call. -/
structure ForgetResult where
  action : String
  episodeId : String
  graph : List GraphitiEpisode
  spicedb : SpiceDbState
deriving DecidableEq

/-- `memory_forget.execute` (src/index.ts lines 322-359): check the
fragment-level `delete` permission (deny on failure), delete the episode from
Graphiti, then best-effort clean up SpiceDB tuples via
`deleteFragmentRelationships` with the caller's configured default group and
own subject. -/
def memoryForgetExecute (check : PermOracle) (currentSubject : Subject)
    (defaultGroupId : String) (graph : List GraphitiEpisode)
    (st : SpiceDbState) (episodeId : String) : ForgetResult :=
  if !canDeleteFragment check currentSubject episodeId then
    ⟨"denied", episodeId, graph, st⟩
  else
    let graph1 := graph.filter (fun e => !(e.uuid == episodeId))
    let st1 := (deleteFragmentRelationships st episodeId
      ⟨episodeId, defaultGroupId, currentSubject, none⟩).1
    ⟨"deleted", episodeId, graph1, st1⟩

/-! ## Helper lemmas -/

theorem touchTuple_mem_self (s : List RelationshipTuple) (t : RelationshipTuple) :
    t ∈ touchTuple s t := by
  unfold touchTuple
  split
  · assumption
  · exact List.mem_append_right _ (List.mem_singleton_self t)

theorem touchTuple_mem_of_mem {x : RelationshipTuple}
    (s : List RelationshipTuple) (t : RelationshipTuple) (h : x ∈ s) :
    x ∈ touchTuple s t := by
  unfold touchTuple
  split
  · exact h
  · exact List.mem_append_left _ h

theorem foldl_touchTuple_mem {x : RelationshipTuple}
    (ts : List RelationshipTuple) (s : List RelationshipTuple) (h : x ∈ s) :
    x ∈ ts.foldl touchTuple s := by
  induction ts generalizing s with
  | nil => exact h
  | cons t ts ih => exact ih _ (touchTuple_mem_of_mem _ _ h)

theorem mem_dedupGo {r : SearchResult} (seen : List String)
    (l : List SearchResult) (h : r ∈ dedupGo seen l) :
    r.uuid ∉ seen ∧ l.find? (fun x => x.uuid == r.uuid) = some r := by
  induction l generalizing seen with
  | nil => cases h
  | cons x rest ih =>
    by_cases hx : x.uuid ∈ seen
    · rw [dedupGo, if_pos hx] at h
      obtain ⟨hns, hfind⟩ := ih seen h
      have hbf : (x.uuid == r.uuid) = false :=
        beq_eq_false_iff_ne.mpr (fun he => hns (he ▸ hx))
      refine ⟨hns, ?_⟩
      simp only [List.find?_cons, hbf, cond_false]
      exact hfind
    · rw [dedupGo, if_neg hx] at h
      rcases List.mem_cons.mp h with heq | htail
      · subst heq
        refine ⟨hx, ?_⟩
        simp only [List.find?_cons, beq_self_eq_true, cond_true]
      · obtain ⟨hns, hfind⟩ := ih (x.uuid :: seen) htail
        have hbf : (x.uuid == r.uuid) = false :=
          beq_eq_false_iff_ne.mpr
            (fun he => hns (he ▸ List.mem_cons_self _ _))
        refine ⟨fun hmem => hns (List.mem_cons_of_mem _ hmem), ?_⟩
        simp only [List.find?_cons, hbf, cond_false]
        exact hfind

theorem dedupGo_pairwise (seen : List String) (l : List SearchResult) :
    (dedupGo seen l).Pairwise (fun a b => a.uuid ≠ b.uuid) := by
  induction l generalizing seen with
  | nil => simp [dedupGo]
  | cons x rest ih =>
    by_cases hx : x.uuid ∈ seen
    · rw [dedupGo, if_pos hx]
      exact ih seen
    · rw [dedupGo, if_neg hx]
      refine List.Pairwise.cons ?_ (ih _)
      intro b hb
      have hb2 := (mem_dedupGo _ _ hb).1
      exact fun hxb => hb2 (hxb ▸ List.mem_cons_self _ _)

theorem collectFulfilled_filter (rs : List SettledSearch) :
    collectFulfilled (rs.filter isFulfilled) = collectFulfilled rs := by
  induction rs with
  | nil => rfl
  | cons r rest ih =>
    cases r with
    | ok v => simp [collectFulfilled, isFulfilled, List.filter_cons, ih]
    | error e => simp [collectFulfilled, isFulfilled, List.filter_cons, ih]

theorem sortByRecency_perm (l : List SearchResult) :
    List.Perm (sortByRecency l) l :=
  List.perm_insertionSort recencyLE l

theorem mem_searchAuthorizedMemories {r : SearchResult}
    (resultSets : List SettledSearch) (limit : Nat)
    (h : r ∈ searchAuthorizedMemories resultSets limit) :
    r ∈ dedupByUuid (collectFulfilled resultSets) := by
  have h1 : r ∈ sortByRecency (dedupByUuid (collectFulfilled resultSets)) :=
    List.mem_of_mem_take h
  exact (sortByRecency_perm _).mem_iff.mp h1

theorem resolveFrom_none (polls : PollTrace) (name : String) :
    ∀ (remaining start : Nat),
      (∀ j, j < remaining → noPollMatch name (polls (start + j))) →
      resolveFrom polls name start remaining = none := by
  intro remaining
  induction remaining with
  | zero => intro start _; rfl
  | succ m ih =>
    intro start hall
    have h0 := hall 0 (Nat.succ_pos m)
    rw [Nat.add_zero] at h0
    have hnext : ∀ j, j < m → noPollMatch name (polls (start + 1 + j)) := by
      intro j hj
      have := hall (j + 1) (Nat.succ_lt_succ hj)
      rwa [Nat.add_comm j 1, ← Nat.add_assoc] at this
    cases hp : polls start with
    | ok eps =>
      have hnone : eps.find? (fun ep => ep.name == name) = none := by
        rw [hp] at h0
        exact h0
      simp only [resolveFrom, hp, hnone]
      exact ih (start + 1) hnext
    | error e =>
      simp only [resolveFrom, hp]
      exact ih (start + 1) hnext

theorem resolveFrom_first (polls : PollTrace) (name : String) :
    ∀ (d remaining start : Nat), d < remaining →
      (∀ j, j < d → noPollMatch name (polls (start + j))) →
      ∀ (eps : List GraphitiEpisode) (ep : GraphitiEpisode),
        polls (start + d) = Except.ok eps →
        eps.find? (fun e => e.name == name) = some ep →
        resolveFrom polls name start remaining = some (start + d, ep.uuid) := by
  intro d
  induction d with
  | zero =>
    intro remaining start hd _ eps ep hok hfind
    obtain ⟨m, rfl⟩ := Nat.exists_eq_succ_of_ne_zero (Nat.pos_iff_ne_zero.mp hd)
    rw [Nat.add_zero] at hok
    simp only [resolveFrom, hok, hfind, Nat.add_zero]
  | succ d ih =>
    intro remaining start hd hbefore eps ep hok hfind
    obtain ⟨m, rfl⟩ := Nat.exists_eq_succ_of_ne_zero
      (Nat.pos_iff_ne_zero.mp (Nat.lt_of_le_of_lt (Nat.zero_le _) hd))
    have h0 := hbefore 0 (Nat.succ_pos d)
    rw [Nat.add_zero] at h0
    have hok1 : polls (start + 1 + d) = Except.ok eps := by
      rw [Nat.add_assoc, Nat.add_comm 1 d]
      exact hok
    have hrest : resolveFrom polls name (start + 1) m =
        some (start + 1 + d, ep.uuid) := by
      refine ih m (start + 1) (Nat.lt_of_succ_lt_succ hd) ?_ eps ep hok1 hfind
      intro j hj
      have := hbefore (j + 1) (Nat.succ_lt_succ hj)
      rwa [Nat.add_comm j 1, ← Nat.add_assoc] at this
    have harr : start + 1 + d = start + (d + 1) := by omega
    rw [harr] at hrest
    cases hp : polls start with
    | ok eps0 =>
      have hnone : eps0.find? (fun e => e.name == name) = none := by
        rw [hp] at h0
        exact h0
      simp only [resolveFrom, hp, hnone]
      exact hrest
    | error e =>
      simp only [resolveFrom, hp]
      exact hrest

theorem resolveFrom_congr (pollsA pollsB : PollTrace) (name : String) :
    ∀ (remaining start : Nat),
      (∀ j, start ≤ j → j < start + remaining → pollsA j = pollsB j) →
      resolveFrom pollsA name start remaining =
        resolveFrom pollsB name start remaining := by
  intro remaining
  induction remaining with
  | zero => intro start _; rfl
  | succ m ih =>
    intro start hagree
    have h0 : pollsA start = pollsB start :=
      hagree start (Nat.le_refl _) (Nat.lt_add_of_pos_right (Nat.succ_pos m))
    have hrec := ih (start + 1) (fun j h1 h2 =>
      hagree j (Nat.le_of_succ_le h1) (by omega))
    cases hp : pollsA start with
    | ok eps =>
      have hp' : pollsB start = Except.ok eps := by rw [← h0, hp]
      cases hf : eps.find? (fun ep => ep.name == name) with
      | some ep => simp only [resolveFrom, hp, hp', hf]
      | none =>
        simp only [resolveFrom, hp, hp', hf]
        exact hrec
    | error e =>
      have hp' : pollsB start = Except.error e := by rw [← h0, hp]
      simp only [resolveFrom, hp, hp']
      exact hrec

/-! ## Claim theorems -/

/-- Claim C7: every result list returned by the parallel search has pairwise
distinct identifiers, and each returned element is exactly the first
occurrence of its identifier among the merged per-partition results (first
occurrence wins). -/
theorem c7_search_dedup_first_wins (resultSets : List SettledSearch)
    (limit : Nat) :
    (searchAuthorizedMemories resultSets limit).Pairwise
      (fun a b => a.uuid ≠ b.uuid) ∧
    ∀ r, r ∈ searchAuthorizedMemories resultSets limit →
      (collectFulfilled resultSets).find? (fun x => x.uuid == r.uuid) = some r := by
  constructor
  · have hd := dedupGo_pairwise [] (collectFulfilled resultSets)
    have hsym : ∀ {x y : SearchResult}, x.uuid ≠ y.uuid → y.uuid ≠ x.uuid :=
      fun h => h.symm
    have hsorted :
        (sortByRecency (dedupByUuid (collectFulfilled resultSets))).Pairwise
          (fun a b => a.uuid ≠ b.uuid) :=
      ((sortByRecency_perm _).pairwise_iff hsym).mpr hd
    exact hsorted.sublist (List.take_sublist _ _)
  · intro r hr
    exact (mem_dedupGo [] _ (mem_searchAuthorizedMemories _ _ hr)).2

/-- Witness for C7, on the spec's scenario: the same identifier `"n1"`
returned by two partitions yields a single merged result, and the survivor is
the first occurrence. -/
theorem c7_search_dedup_first_wins_witness :
    ((searchAuthorizedMemories
        [Except.ok [⟨"node", "n1", "family", "s", "n", 100⟩],
         Except.ok [⟨"node", "n1", "work", "s", "n", 100⟩]] 10).Pairwise
      (fun a b => a.uuid ≠ b.uuid)) ∧
    (collectFulfilled
        [Except.ok [⟨"node", "n1", "family", "s", "n", 100⟩],
         Except.ok [⟨"node", "n1", "work", "s", "n", 100⟩]]).find?
      (fun x => x.uuid == "n1") =
      some ⟨"node", "n1", "family", "s", "n", 100⟩ ∧
    (searchAuthorizedMemories
        [Except.ok [⟨"node", "n1", "family", "s", "n", 100⟩],
         Except.ok [⟨"node", "n1", "work", "s", "n", 100⟩]] 10).length = 1 := by
  refine ⟨(c7_search_dedup_first_wins _ 10).1, ?_, by decide⟩
  exact (c7_search_dedup_first_wins
      [Except.ok [⟨"node", "n1", "family", "s", "n", 100⟩],
       Except.ok [⟨"node", "n1", "work", "s", "n", 100⟩]] 10).2
    ⟨"node", "n1", "family", "s", "n", 100⟩ (by decide)

/-- Claim C8: parallel-search results are ordered by creation timestamp
descending (any element before another has a `created_at` at least as large)
and truncated to at most `limit` elements. -/
theorem c8_search_sorted_truncated (resultSets : List SettledSearch)
    (limit : Nat) :
    (searchAuthorizedMemories resultSets limit).Pairwise
      (fun a b => b.created_at ≤ a.created_at) ∧
    (searchAuthorizedMemories resultSets limit).length ≤ limit := by
  constructor
  · have hs :
        (sortByRecency (dedupByUuid (collectFulfilled resultSets))).Pairwise
          recencyLE :=
      List.sorted_insertionSort recencyLE _
    exact hs.sublist (List.take_sublist _ _)
  · exact List.length_take_le _ _

/-- Claim C9: rejected per-partition searches are swallowed, never
propagated — the merged output over any mix of fulfilled and rejected
partition searches equals the output over the fulfilled ones alone. -/
theorem c9_search_swallows_failures (resultSets : List SettledSearch)
    (limit : Nat) :
    searchAuthorizedMemories resultSets limit =
      searchAuthorizedMemories (resultSets.filter isFulfilled) limit := by
  unfold searchAuthorizedMemories
  rw [collectFulfilled_filter]

/-- Counterexample for claim C3 as stated: the defaults of the reconciliation
poll are not 3000 ms and 30 attempts. -/
theorem c3_counterexample :
    ¬(uuidPollIntervalMsDefault = 3000 ∧ uuidPollMaxAttemptsDefault = 30) := by
  decide

/-- Claim C3 (amended): the identifier-reconciliation poll waits
`uuidPollIntervalMs` between attempts with a default of 2000 ms, makes at most
`uuidPollMaxAttempts` attempts with a default of 15, resolves with the server
id on the first name match among recently listed items (after waiting
`(i+1) * intervalMs` for attempt `i`), and after exhausting all attempts
rejects with a timeout error naming `maxAttempts * intervalMs / 1000`
seconds. -/
theorem c3_reconciliation_poll :
    uuidPollIntervalMsDefault = 2000 ∧ uuidPollMaxAttemptsDefault = 15 ∧
    ∀ (intervalMs maxAttempts : Nat) (name groupId : String)
      (polls : PollTrace),
      ((∀ i, i < maxAttempts → noPollMatch name (polls i)) →
        resolveEpisodeUuid intervalMs maxAttempts name groupId polls =
          Except.error (timeoutMessage name groupId intervalMs maxAttempts)) ∧
      (∀ i eps ep, i < maxAttempts →
        (∀ j, j < i → noPollMatch name (polls j)) →
        polls i = Except.ok eps →
        eps.find? (fun e => e.name == name) = some ep →
        resolveEpisodeUuid intervalMs maxAttempts name groupId polls =
          Except.ok ((i + 1) * intervalMs, ep.uuid)) ∧
      (∀ polls2 : PollTrace, (∀ i, i < maxAttempts → polls i = polls2 i) →
        resolveEpisodeUuid intervalMs maxAttempts name groupId polls =
          resolveEpisodeUuid intervalMs maxAttempts name groupId polls2) := by
  refine ⟨rfl, rfl, ?_⟩
  intro intervalMs maxAttempts name groupId polls
  refine ⟨?_, ?_, ?_⟩
  · intro hall
    have h := resolveFrom_none polls name maxAttempts 0
      (fun j hj => by rw [Nat.zero_add]; exact hall j hj)
    unfold resolveEpisodeUuid
    rw [h]
  · intro i eps ep hi hbefore hok hfind
    have h := resolveFrom_first polls name i maxAttempts 0 hi
      (fun j hj => by rw [Nat.zero_add]; exact hbefore j hj) eps ep
      (by rw [Nat.zero_add]; exact hok) hfind
    rw [Nat.zero_add] at h
    unfold resolveEpisodeUuid
    rw [h]
  · intro polls2 hagree
    have h := resolveFrom_congr polls polls2 name maxAttempts 0
      (fun j _ h2 => hagree j (by rwa [Nat.zero_add] at h2))
    unfold resolveEpisodeUuid
    rw [h]

/-- Witness for C3: with interval 10 ms and 3 attempts, a never-matching
trace rejects with the timeout message, and a first-attempt match resolves to
the server uuid after one interval. -/
theorem c3_reconciliation_poll_witness :
    resolveEpisodeUuid 10 3 "e2e" "grp" (fun _ => Except.error ()) =
      Except.error (timeoutMessage "e2e" "grp" 10 3) ∧
    resolveEpisodeUuid 10 3 "e2e" "grp"
        (fun _ => Except.ok [⟨"real-uuid", "e2e", "c", "s", "grp", "t"⟩]) =
      Except.ok (10, "real-uuid") := by
  constructor
  · exact (c3_reconciliation_poll.2.2 10 3 "e2e" "grp"
      (fun _ => Except.error ())).1 (fun i _ => trivial)
  · exact (c3_reconciliation_poll.2.2 10 3 "e2e" "grp"
      (fun _ => Except.ok [⟨"real-uuid", "e2e", "c", "s", "grp", "t"⟩])).2.1
      0 [⟨"real-uuid", "e2e", "c", "s", "grp", "t"⟩]
      ⟨"real-uuid", "e2e", "c", "s", "grp", "t"⟩ (by decide)
      (fun j hj => absurd hj (Nat.not_lt_zero j)) rfl (by decide)

/-- Claim C10: a failed initialization clears the memoized promise before the
error propagates (so a subsequent call runs a fresh handshake), a successful
handshake records the session id from the response header, and once a session
id is set later calls never re-run initialization. -/
theorem c10_init_failure_clears_memo (respFail respNext : InitResponse)
    (s : ClientInitState) :
    (respFail.ok = false →
      (ensureInitialized respFail freshClient).succeeded = false ∧
      (ensureInitialized respFail freshClient).state.initPromise = none ∧
      (ensureInitialized respFail freshClient).state.sessionId = none ∧
      (ensureInitialized respNext
        (ensureInitialized respFail freshClient).state).ranHandshake = true) ∧
    (respNext.ok = true →
      (ensureInitialized respNext freshClient).state.sessionId =
        respNext.sessionHeader) ∧
    (∀ sid, s.sessionId = some sid →
      (ensureInitialized respNext s).ranHandshake = false ∧
      (ensureInitialized respNext s).state = s) := by
  refine ⟨?_, ?_, ?_⟩
  · intro hfail
    simp [ensureInitialized, freshClient, initHandshake, hfail]
  · intro hok
    simp [ensureInitialized, freshClient, initHandshake, hok]
  · intro sid hsid
    simp [ensureInitialized, hsid]

/-- Witness for C10: a concrete failed handshake followed by a fresh retry,
a concrete successful handshake, and a no-op call on an established session. -/
theorem c10_init_failure_clears_memo_witness :
    (ensureInitialized (⟨true, some "sid-1"⟩ : InitResponse)
      (ensureInitialized (⟨false, none⟩ : InitResponse)
        freshClient).state).ranHandshake = true ∧
    (ensureInitialized (⟨true, some "sid-1"⟩ : InitResponse)
      freshClient).state.sessionId = some "sid-1" ∧
    (ensureInitialized (⟨true, some "sid-1"⟩ : InitResponse)
      (⟨some "sid-0", none⟩ : ClientInitState)).ranHandshake = false := by
  refine ⟨?_, ?_, ?_⟩
  · exact ((c10_init_failure_clears_memo ⟨false, none⟩ ⟨true, some "sid-1"⟩
      ⟨some "sid-0", none⟩).1 rfl).2.2.2
  · exact (c10_init_failure_clears_memo ⟨false, none⟩ ⟨true, some "sid-1"⟩
      ⟨some "sid-0", none⟩).2.1 rfl
  · exact ((c10_init_failure_clears_memo ⟨false, none⟩ ⟨true, some "sid-1"⟩
      ⟨some "sid-0", none⟩).2.2 "sid-0" rfl).1

/-- Counterexample for claim C4 as stated: tuple-based relationship delete and
membership ensure advance the store's revision (a causal token is produced by
the underlying RPC) yet return no token to the caller. -/
theorem c4_counterexample :
    (deleteRelationships ⟨[], 0⟩
      [⟨"memory_fragment", "ep-1", "shared_by", "agent", "pi"⟩]).1.revision = 1 ∧
    (deleteRelationships ⟨[], 0⟩
      [⟨"memory_fragment", "ep-1", "shared_by", "agent", "pi"⟩]).2 ≠ some 1 ∧
    (ensureGroupMembership ⟨[], 0⟩ "family" ⟨"person", "mom"⟩).1.revision = 1 ∧
    (ensureGroupMembership ⟨[], 0⟩ "family" ⟨"person", "mom"⟩).2 ≠ some 1 := by
  refine ⟨rfl, ?_, rfl, ?_⟩ <;>
    simp [deleteRelationships, ensureGroupMembership]

/-- Claim C4 (amended): relationship write and filter-based delete return the
causal token of the write they performed; tuple-based relationship delete and
membership ensure perform their write (advancing the revision) but return no
token. -/
theorem c4_write_token_returns (st : SpiceDbState)
    (ts : List RelationshipTuple) (f : RelFilter) (groupId : String)
    (m : Subject) :
    (writeRelationships st ts).2 = some (st.revision + 1) ∧
    (writeRelationships st ts).1.revision = st.revision + 1 ∧
    (deleteRelationshipsByFilter st f).2 = some (st.revision + 1) ∧
    (deleteRelationshipsByFilter st f).1.revision = st.revision + 1 ∧
    (deleteRelationships st ts).1.revision = st.revision + 1 ∧
    (deleteRelationships st ts).2 = none ∧
    (ensureGroupMembership st groupId m).1.revision = st.revision + 1 ∧
    (ensureGroupMembership st groupId m).2 = none :=
  ⟨rfl, rfl, rfl, rfl, rfl, rfl, rfl, rfl⟩

/-- Claim C6: a store targeting the subject's own current session partition
skips the permission check and idempotently ensures membership; a store
targeting any other partition performs an explicit `contribute` check and is
declined (with no state change) when it fails. -/
theorem c6_store_own_session_fast_path (check : PermOracle)
    (currentSessionId : Option String) (subj : Subject)
    (defaultGroupId trackingUuid : String) (p : StoreParams)
    (st : SpiceDbState) (target : String)
    (htarget : target =
      resolveTargetGroupId p.group_id p.longTerm currentSessionId
        defaultGroupId) :
    (isOwnSessionTarget currentSessionId target = true →
      (memoryStoreExecute check currentSessionId subj defaultGroupId
        trackingUuid p st).contributeChecked = false ∧
      (memoryStoreExecute check currentSessionId subj defaultGroupId
        trackingUuid p st).membershipEnsured = true ∧
      groupMemberTuple target subj ∈
        (memoryStoreExecute check currentSessionId subj defaultGroupId
          trackingUuid p st).spicedb.tuples ∧
      (memoryStoreExecute check currentSessionId subj defaultGroupId
        trackingUuid p st).action = "created") ∧
    (isOwnSessionTarget currentSessionId target = false →
      (memoryStoreExecute check currentSessionId subj defaultGroupId
        trackingUuid p st).membershipEnsured = false ∧
      (memoryStoreExecute check currentSessionId subj defaultGroupId
        trackingUuid p st).contributeChecked = true ∧
      (canWriteToGroup check subj target = false →
        (memoryStoreExecute check currentSessionId subj defaultGroupId
          trackingUuid p st).action = "denied" ∧
        (memoryStoreExecute check currentSessionId subj defaultGroupId
          trackingUuid p st).spicedb = st) ∧
      (canWriteToGroup check subj target = true →
        (memoryStoreExecute check currentSessionId subj defaultGroupId
          trackingUuid p st).action = "created")) := by
  subst htarget
  constructor
  · intro hown
    simp only [memoryStoreExecute, hown, if_true]
    refine ⟨trivial, trivial, ?_, trivial⟩
    exact foldl_touchTuple_mem _ _ (touchTuple_mem_self _ _)
  · intro hother
    cases hcw : canWriteToGroup check subj
        (resolveTargetGroupId p.group_id p.longTerm currentSessionId
          defaultGroupId) with
    | false =>
      simp only [memoryStoreExecute, hother, Bool.false_eq_true, if_false,
        hcw, Bool.not_false, if_true, false_implies, true_implies]
      exact ⟨trivial, trivial, ⟨trivial, trivial⟩, trivial⟩
    | true =>
      simp only [memoryStoreExecute, hother, Bool.false_eq_true,
        Bool.true_eq_false, if_false, hcw, Bool.not_true, false_implies,
        true_implies]
      exact ⟨trivial, trivial, trivial, trivial⟩

/-- Witness for C6: own-session store with an all-denying oracle still ensures
membership without a check; a foreign-session store with the same oracle is
checked and denied. -/
theorem c6_store_own_session_fast_path_witness :
    (memoryStoreExecute (fun _ => false) (some "sess-1") ⟨"agent", "pi"⟩
      "main" "uuid-1" ⟨"hi", [], none, false⟩ ⟨[], 0⟩).membershipEnsured =
      true ∧
    (memoryStoreExecute (fun _ => false) (some "sess-1") ⟨"agent", "pi"⟩
      "main" "uuid-1" ⟨"hi", [], none, false⟩ ⟨[], 0⟩).contributeChecked =
      false ∧
    (memoryStoreExecute (fun _ => false) (some "my-sess") ⟨"agent", "pi"⟩
      "main" "uuid-1" ⟨"hi", [], some "session-other", true⟩
      ⟨[], 0⟩).action = "denied" := by
  refine ⟨?_, ?_, ?_⟩
  · exact ((c6_store_own_session_fast_path (fun _ => false) (some "sess-1")
      ⟨"agent", "pi"⟩ "main" "uuid-1" ⟨"hi", [], none, false⟩ ⟨[], 0⟩
      "session-sess-1" (by decide)).1 (by decide)).2.1
  · exact ((c6_store_own_session_fast_path (fun _ => false) (some "sess-1")
      ⟨"agent", "pi"⟩ "main" "uuid-1" ⟨"hi", [], none, false⟩ ⟨[], 0⟩
      "session-sess-1" (by decide)).1 (by decide)).1
  · exact (((c6_store_own_session_fast_path (fun _ => false) (some "my-sess")
      ⟨"agent", "pi"⟩ "main" "uuid-1" ⟨"hi", [], some "session-other", true⟩
      ⟨[], 0⟩ "session-other" (by decide)).2 (by decide)).2.2.1
      (by decide)).1

/-- Claim C1 (divergence): `memory_store` writes the fragment tuples under the
client-generated tracking uuid, synchronously, and never re-writes them under
the server-assigned id; the reconciliation poll resolves to a distinct server
uuid, and `readRelationships` for that resolved id returns zero tuples (the
two tuples sit under the placeholder instead). -/
theorem c1_divergence :
    resolveEpisodeUuid uuidPollIntervalMsDefault uuidPollMaxAttemptsDefault
        "memory_1700" "family"
        (fun _ => Except.ok
          [⟨"server-uuid-1", "memory_1700", "Mark got promoted",
            "conversation", "family", "2026-02-10"⟩]) =
      Except.ok (2000, "server-uuid-1") ∧
    "server-uuid-1" ≠ "placeholder-1" ∧
    readRelationships
        (memoryStoreExecute (fun _ => true) none ⟨"agent", "pi"⟩ "main"
          "placeholder-1" ⟨"Mark got promoted", [], some "family", true⟩
          ⟨[], 0⟩).spicedb
        ⟨"memory_fragment", some "server-uuid-1", none, none, none⟩ = [] ∧
    readRelationships
        (memoryStoreExecute (fun _ => true) none ⟨"agent", "pi"⟩ "main"
          "placeholder-1" ⟨"Mark got promoted", [], some "family", true⟩
          ⟨[], 0⟩).spicedb
        ⟨"memory_fragment", some "placeholder-1", none, none, none⟩ =
      [⟨"memory_fragment", "placeholder-1", "source_group", "group", "family"⟩,
       ⟨"memory_fragment", "placeholder-1", "shared_by", "agent", "pi"⟩] := by
  refine ⟨rfl, ?_, ?_, ?_⟩ <;> decide

/-- Claim C2 (divergence): for a fragment with zero authorization
relationships whose episode sits in a group the requester can contribute to,
`memory_forget` still denies unconditionally once the fragment-level `delete`
check fails — no partition-search fallback runs and nothing is deleted. -/
theorem c2_divergence :
    readRelationships ⟨[], 0⟩
      ⟨"memory_fragment", some "ep-orphan", none, none, none⟩ = [] ∧
    canWriteToGroup (fun r => !(r.permission == "delete")) ⟨"agent", "pi"⟩
      "main" = true ∧
    (memoryForgetExecute (fun r => !(r.permission == "delete"))
      ⟨"agent", "pi"⟩ "main"
      [⟨"ep-orphan", "mem_1", "test", "conv", "main", "2026-02-10"⟩]
      ⟨[], 0⟩ "ep-orphan").action = "denied" ∧
    (memoryForgetExecute (fun r => !(r.permission == "delete"))
      ⟨"agent", "pi"⟩ "main"
      [⟨"ep-orphan", "mem_1", "test", "conv", "main", "2026-02-10"⟩]
      ⟨[], 0⟩ "ep-orphan").graph =
      [⟨"ep-orphan", "mem_1", "test", "conv", "main", "2026-02-10"⟩] := by
  refine ⟨?_, ?_, ?_, ?_⟩ <;> decide

/-- Claim C5 (divergence): `memory_forget` cleans up with a tuple-based delete
built from the caller's default group and own subject, so the relationships of
a fragment stored to another group by another creator survive the deletion;
the filter-based delete the claim describes would have removed them all. -/
theorem c5_divergence :
    (memoryForgetExecute (fun _ => true) ⟨"agent", "pi"⟩ "main" []
      ⟨[⟨"memory_fragment", "ep-1", "source_group", "group", "family"⟩,
        ⟨"memory_fragment", "ep-1", "shared_by", "agent", "other"⟩], 5⟩
      "ep-1").action = "deleted" ∧
    readRelationships
      (memoryForgetExecute (fun _ => true) ⟨"agent", "pi"⟩ "main" []
        ⟨[⟨"memory_fragment", "ep-1", "source_group", "group", "family"⟩,
          ⟨"memory_fragment", "ep-1", "shared_by", "agent", "other"⟩], 5⟩
        "ep-1").spicedb
      ⟨"memory_fragment", some "ep-1", none, none, none⟩ =
      [⟨"memory_fragment", "ep-1", "source_group", "group", "family"⟩,
       ⟨"memory_fragment", "ep-1", "shared_by", "agent", "other"⟩] ∧
    readRelationships
      (deleteRelationshipsByFilter
        ⟨[⟨"memory_fragment", "ep-1", "source_group", "group", "family"⟩,
          ⟨"memory_fragment", "ep-1", "shared_by", "agent", "other"⟩], 5⟩
        ⟨"memory_fragment", "ep-1", none⟩).1
      ⟨"memory_fragment", some "ep-1", none, none, none⟩ = [] := by
  refine ⟨?_, ?_, ?_⟩ <;> decide
